import Mathlib

/-!
Verification of the email-assistant pipeline.

This file gives a shallow embedding of the stateful core of the repository:
the classifier (`src/execution/categorize_emails.py`), the per-sender context
store (`src/execution/manage_client_context.py`), the invoice extraction
engine and review router (`src/execution/extract_invoice_data.py`), and the
label applier (`src/execution/apply_gmail_labels.py`).

External collaborators (the Gmail API, the Anthropic/OpenAI inference
providers, the filesystem) are modelled as explicit inputs: every inference
call site takes the provider's outcome as a parameter (`none` models a raised
exception / transport failure, `some s` models the raw response text `s`),
the persistent per-sender context directory is modelled as a total function
from sender key to an optional context record, and Gmail label creation is
modelled as a function from category to an optional label id.
-/

/-! ## Python string primitives

The scripts use `str.strip()`, `str.lower()`, `str.strip('"')` and the
substring test `a in b`.  These are embedded as executable functions on the
character list underlying a `String`, mirroring Python's (ASCII) behaviour.
-/

/-- Lower-case a single character, as Python `str.lower` does on ASCII. -/
def pyLowerChar (c : Char) : Char :=
  if 65 ≤ c.toNat && c.toNat ≤ 90 then Char.ofNat (c.toNat + 32) else c

/-- Python `s.lower()` (ASCII fragment). -/
def pyLower (s : String) : String :=
  String.mk (s.data.map pyLowerChar)

/-- Characters stripped by Python `str.strip()` with no arguments. -/
def isPySpace (c : Char) : Bool :=
  c = ' ' || c = '\t' || c = '\n' || c = '\r' || c = '\x0b' || c = '\x0c'

/-- Python `s.strip()`: drop whitespace from both ends. -/
def pyStrip (s : String) : String :=
  String.mk (((s.data.dropWhile isPySpace).reverse.dropWhile isPySpace).reverse)

/-- Python `s.strip('"')`: drop double-quote characters from both ends. -/
def stripQuotes (s : String) : String :=
  String.mk (((s.data.dropWhile (fun c => c = '"')).reverse.dropWhile
    (fun c => c = '"')).reverse)

/-- Does the character list `hay` start with `needle`? -/
def listStartsWith : (needle hay : List Char) → Bool
  | [], _ => true
  | _ :: _, [] => false
  | a :: as, b :: bs => (a = b) && listStartsWith as bs

/-- Is `needle` a contiguous sub-list of `hay`? -/
def listFindSub : (hay needle : List Char) → Bool
  | [], needle => needle.isEmpty
  | h :: t, needle => listStartsWith needle (h :: t) || listFindSub t needle

/-- Python substring test `needle in hay`. -/
def pyContains (hay needle : String) : Bool :=
  listFindSub hay.data needle.data

/-- Lexicographic comparison of character lists by code point. -/
def charListLt : List Char → List Char → Bool
  | [], [] => false
  | [], _ :: _ => true
  | _ :: _, [] => false
  | a :: as, b :: bs => a < b || (a = b && charListLt as bs)

/-- Python `s < t` on strings (the order in which ISO timestamps compare
chronologically). -/
def pyStrLt (s t : String) : Bool := charListLt s.data t.data

/-- Python `s <= t` on strings. -/
def pyStrLe (s t : String) : Bool := pyStrLt s t || s = t

/-! ## Classifier (`src/execution/categorize_emails.py`)

`CATEGORIES` is the key set of the module-level dictionary.  A provider call
is modelled by its outcome: `none` for a raised exception (timeout, transport
error), `some s` for the raw response text.  The category-validation logic of
`categorize_with_anthropic` / `categorize_with_openai` (strip, lower-case,
default to `"other"` on an unrecognized token) is shared verbatim between the
two call sites in the source.
-/

/-- The fixed six-member category enumeration (the keys of `CATEGORIES`). -/
def CATEGORIES : List String :=
  ["advertising", "invoice", "important_update", "new_client_inquiry",
   "existing_client", "other"]

/-- The validation performed on a provider's raw response text:
`category = text.strip().lower()`, then `if category not in CATEGORIES:
category = 'other'`. -/
def validateCategory (raw : String) : String :=
  let category := pyLower (pyStrip raw)
  if category ∈ CATEGORIES then category else "other"

/-- `categorize_with_anthropic`: returns the validated category on a
successful API call, `None` when the call raises. -/
def categorize_with_anthropic (outcome : Option String) : Option String :=
  outcome.map validateCategory

/-- `categorize_with_openai`: identical validation logic on the OpenAI
response; returns `None` when the call raises. -/
def categorize_with_openai (outcome : Option String) : Option String :=
  outcome.map validateCategory

/-- Which provider API keys are present in the environment. -/
structure Keys where
  anthropicKey : Bool
  openaiKey : Bool
deriving DecidableEq

/-- The per-email body of the loop in `categorize_emails`, after the key
check has fixed `use_anthropic`.  `anth` and `oai` are the outcomes the two
providers would produce for this email.  Returns the assigned category
together with the number of provider calls actually made. -/
def categorize_one (use_anthropic : Bool) (k : Keys)
    (anth oai : Option String) : String × Nat :=
  let primary :=
    if use_anthropic then categorize_with_anthropic anth
    else categorize_with_openai oai
  match primary with
  | some c => (c, 1)
  | none =>
    if use_anthropic && k.openaiKey then
      match categorize_with_openai oai with
      | some c => (c, 2)
      | none => ("other", 2)
    else if (!use_anthropic) && k.anthropicKey then
      match categorize_with_anthropic anth with
      | some c => (c, 2)
      | none => ("other", 2)
    else ("other", 1)

/-- An email record as seen by the categorization stage (fields irrelevant to
the claims are omitted); `category` is absent before classification. -/
structure CEmail where
  id : String
  subject : String
  category : Option String
deriving DecidableEq

/-- One loop iteration's input: the email plus the outcome each provider
would return for it. -/
structure CatStep where
  email : CEmail
  anth : Option String
  oai : Option String

/-- `categorize_emails`: adjusts `use_anthropic` when the Anthropic key is
missing, raises (`none`) when no usable key remains, then assigns each email
the category computed by the primary/fallback/default chain. -/
def categorize_emails (use_anthropic : Bool) (k : Keys)
    (steps : List CatStep) : Option (List CEmail) :=
  if !(use_anthropic && k.anthropicKey) && !k.openaiKey then none
  else
    some (steps.map (fun st =>
      { st.email with
        category := some (categorize_one (use_anthropic && k.anthropicKey) k
          st.anth st.oai).1 }))

/-! ## Extraction engine (`src/execution/extract_invoice_data.py`)

`extract_invoice_data_with_llm` parses the provider's response into a JSON
object and derives a confidence score.  The parsed object is embedded as an
association list of keys to JSON values (`JVal.null` models JSON `null`,
i.e. Python `None`).  The input is the parse outcome: `none` models a raised
API error or a `json.JSONDecodeError`; `some data` a successfully parsed
object.  Note that the source computes `fields_found` over *all* values of
the parsed object (`sum(1 for v in data.values() if v is not None)`), not
over the five required fields.
-/

/-- A JSON value as far as the extraction claims need it. -/
inductive JVal where
  | null : JVal
  | str : String → JVal
  | num : ℚ → JVal
deriving DecidableEq

/-- Is this JSON value `null` (Python `None`)? -/
def JVal.isNull : JVal → Bool
  | JVal.null => true
  | _ => false

/-- A parsed JSON object: keys with their values, in insertion order. -/
abbrev JObj := List (String × JVal)

/-- `fields_found = sum(1 for v in data.values() if v is not None)`. -/
def fields_found (data : JObj) : Nat :=
  (data.filter (fun kv => !kv.2.isNull)).length

/-- Python `round(q, 2)` on an exact rational. -/
def round2 (q : ℚ) : ℚ := (round (q * 100) : ℤ) / 100

/-- The five required fields of the extraction prompt's fixed shape. -/
def REQUIRED_FIELDS : List String :=
  ["date", "sender", "invoice_number", "amount", "currency"]

/-- Count of the required fields that are present and non-null in the
parsed object (the quantity the spec's confidence formula refers to). -/
def required_non_null (data : JObj) : Nat :=
  (REQUIRED_FIELDS.filter (fun key =>
    match data.lookup key with
    | some v => !v.isNull
    | none => false)).length

/-- `extract_invoice_data_with_llm`: on a successful parse, returns the
parsed object paired with `round(fields_found / 5.0, 2)`; on an API error or
parse failure returns `None`. -/
def extract_invoice_data_with_llm (parsed : Option JObj) : Option (JObj × ℚ) :=
  parsed.map (fun data => (data, round2 ((fields_found data : ℚ) / 5)))

/-! ## Review router (`src/execution/extract_invoice_data.py`, lines 242-259)

An entry of `invoices_data` is a dictionary carrying a `confidence` key
(possibly absent: `inv.get('confidence', 0)` defaults to `0`) plus further
metadata fields that the router never inspects or alters.
-/

/-- One extraction record as seen by the review router. -/
structure InvoiceRecord where
  confidence : Option ℚ
  payload : List (String × String)
deriving DecidableEq

/-- The list comprehension at the head of `generate_review_queue`:
`[inv for inv in invoices_data if inv.get('confidence', 0) < threshold]`. -/
def review_queue_of (invoices_data : List InvoiceRecord) (threshold : ℚ) :
    List InvoiceRecord :=
  invoices_data.filter (fun inv => inv.confidence.getD 0 < threshold)

/-- The artifact written to `.tmp/invoice_review_queue.json`. -/
structure ReviewArtifact where
  total_for_review : Nat
  invoices : List InvoiceRecord
deriving DecidableEq

/-- `generate_review_queue`: computes the review set and writes the artifact
only when the set is non-empty (`if review_queue:`); `none` models "no file
written". -/
def generate_review_queue (invoices_data : List InvoiceRecord)
    (threshold : ℚ := 7/10) : Option ReviewArtifact :=
  let review_queue := review_queue_of invoices_data threshold
  if review_queue.isEmpty then none
  else some { total_for_review := review_queue.length, invoices := review_queue }

/-! ## Context store (`src/execution/manage_client_context.py`)

The per-sender context directory `client_contexts/<sender>/context.json` is
modelled as a total function from sender key to an optional context record;
`load_context` is application of that function, `save_context` is pointwise
update at the record's `client_email` key (a full-record overwrite).  The
inference provider is again modelled by its outcome: `none` models the
`except` branch (provider failure or unparsable response), `some a` the
parsed JSON analysis.  `datetime.now().isoformat()` is passed in as `now`.
-/

/-- One entry of a context's `communications` list. -/
structure Communication where
  email_id : String
  date : String
  subject : String
  topic : String
  key_points : List String
deriving DecidableEq

/-- One entry of a context's `action_items` list. -/
structure ActionItem where
  description : String
  status : String
  created : String
  urgency : String
deriving DecidableEq

/-- The per-sender context record (schema of `context.json`). -/
structure ClientContext where
  client_email : String
  client_name : String
  first_contact : String
  last_contact : String
  project_summary : String
  inquiry_type : String
  status : String
  communications : List Communication
  action_items : List ActionItem
  created_at : String
  updated_at : String
deriving DecidableEq

/-- An email as seen by the context stage (the categorized cache format;
`fromField` is the `'from'` header, `category` the field added by the
classifier, absent when classification never ran). -/
structure Email where
  id : String
  fromField : String
  subject : String
  date : String
  body : String
  category : Option String
deriving DecidableEq

/-- The parsed analysis the "new inquiry" prompt asks for; each field is
read with `analysis.get(key, default)`, so each may be absent. -/
structure NewAnalysis where
  inquiry_type : Option String
  key_points : Option (List String)
  project_summary : Option String
  urgency : Option String

/-- The parsed analysis the "update" prompt asks for. -/
structure UpdateAnalysis where
  topic : Option String
  key_points : Option (List String)
  new_action_items : Option (List String)

/-- `re.search(r'<(.+?)>', from_field)`: the content between the first `'<'`
and the first `'>'` after it, when non-empty. -/
def angleContent : List Char → Option (List Char)
  | [] => none
  | c :: rest =>
    if c = '<' then
      match rest.dropWhile (fun d => !(d = '>')) with
      | [] => angleContent rest
      | _ :: _ =>
        let inner := rest.takeWhile (fun d => !(d = '>'))
        if inner.isEmpty then angleContent rest else some inner
    else angleContent rest

/-- `extract_sender_email`: the bracketed address when present, else the
whole field, stripped and lower-cased. -/
def extract_sender_email (from_field : String) : String :=
  match angleContent from_field.data with
  | some inner => pyLower (pyStrip (String.mk inner))
  | none => pyLower (pyStrip from_field)

/-- `extract_sender_name`: the display-name part before `'<'`, stripped of
whitespace and surrounding quotes, defaulting to `"Unknown"`. -/
def extract_sender_name (from_field : String) : String :=
  if from_field.data.contains '<' then
    let name := stripQuotes (pyStrip
      (String.mk (from_field.data.takeWhile (fun d => !(d = '<')))))
    if name = "" then "Unknown" else name
  else "Unknown"

/-- `create_new_context`: builds a fresh context record; the `try` branch
uses the parsed LLM analysis, the `except` branch (analysis `none`) builds
the fallback context from the message envelope alone. -/
def create_new_context (email : Email) (analysis : Option NewAnalysis)
    (now : String) : ClientContext :=
  let sender_email := extract_sender_email email.fromField
  let sender_name := extract_sender_name email.fromField
  match analysis with
  | some a =>
    { client_email := sender_email
      client_name := sender_name
      first_contact := email.date
      last_contact := email.date
      project_summary := a.project_summary.getD "No summary available"
      inquiry_type := a.inquiry_type.getD "General inquiry"
      status := "active"
      communications := [
        { email_id := email.id
          date := email.date
          subject := email.subject
          topic := a.inquiry_type.getD "Initial contact"
          key_points := a.key_points.getD [] }]
      action_items := [
        { description := "Respond to initial inquiry"
          status := "pending"
          created := now
          urgency := a.urgency.getD "medium" }]
      created_at := now
      updated_at := now }
  | none =>
    { client_email := sender_email
      client_name := sender_name
      first_contact := email.date
      last_contact := email.date
      project_summary := email.subject
      inquiry_type := "General inquiry"
      status := "active"
      communications := [
        { email_id := email.id
          date := email.date
          subject := email.subject
          topic := "Initial contact"
          key_points := [] }]
      action_items := [
        { description := "Respond to initial inquiry"
          status := "pending"
          created := now
          urgency := "medium" }]
      created_at := now
      updated_at := now }

/-- `update_existing_context`: appends one communication record (and, in the
`try` branch, zero or more action items), then sets `last_contact` to the
incoming email's date and refreshes `updated_at`. -/
def update_existing_context (context : ClientContext) (email : Email)
    (analysis : Option UpdateAnalysis) (now : String) : ClientContext :=
  match analysis with
  | some a =>
    { context with
      communications := context.communications ++ [
        { email_id := email.id
          date := email.date
          subject := email.subject
          topic := a.topic.getD "Follow-up"
          key_points := a.key_points.getD [] }]
      action_items := context.action_items ++
        ((a.new_action_items.getD []).map (fun item_desc =>
          { description := item_desc
            status := "pending"
            created := now
            urgency := "medium" }))
      last_contact := email.date
      updated_at := now }
  | none =>
    { context with
      communications := context.communications ++ [
        { email_id := email.id
          date := email.date
          subject := email.subject
          topic := "Follow-up"
          key_points := [] }]
      last_contact := email.date
      updated_at := now }

/-- The single communication record `update_existing_context` appends. -/
def updateComm (e : Email) (a : Option UpdateAnalysis) : Communication :=
  match a with
  | some an =>
    { email_id := e.id, date := e.date, subject := e.subject,
      topic := an.topic.getD "Follow-up", key_points := an.key_points.getD [] }
  | none =>
    { email_id := e.id, date := e.date, subject := e.subject,
      topic := "Follow-up", key_points := [] }

/-- The single communication record `create_new_context` starts with. -/
def createComm (e : Email) (a : Option NewAnalysis) : Communication :=
  match a with
  | some an =>
    { email_id := e.id, date := e.date, subject := e.subject,
      topic := an.inquiry_type.getD "Initial contact",
      key_points := an.key_points.getD [] }
  | none =>
    { email_id := e.id, date := e.date, subject := e.subject,
      topic := "Initial contact", key_points := [] }

/-- The persisted context directory: sender key to optional record. -/
abbrev ContextStore := String → Option ClientContext

/-- The store with no context files. -/
def emptyStore : ContextStore := fun _ => none

/-- `save_context`: full-record overwrite keyed by the record's
`client_email`. -/
def save_context (store : ContextStore) (context : ClientContext) :
    ContextStore :=
  fun key => if key = context.client_email then some context else store key

/-- The category filter at the head of `manage_client_contexts`:
`e.get('category') in ['new_client_inquiry', 'existing_client']`. -/
def isClientEmail (e : Email) : Bool :=
  e.category == some "new_client_inquiry" || e.category == some "existing_client"

/-- The synthesis outcomes the provider would produce for one email: the
"new inquiry" analysis if the create path is taken, the "update" analysis if
the update path is taken (`none` = the call raises). -/
structure SynthOracle where
  newA : Option NewAnalysis
  updA : Option UpdateAnalysis

/-- The loop body of `manage_client_contexts` for one client email: load the
sender's context, update it or create it, save the result. -/
def process_client_email (store : ContextStore) (e : Email) (o : SynthOracle)
    (now : String) : ContextStore :=
  match store (extract_sender_email e.fromField) with
  | some context =>
    save_context store (update_existing_context context e o.updA now)
  | none =>
    save_context store (create_new_context e o.newA now)

/-- `manage_client_contexts`: processes the client-category emails of the
batch in order, threading the persisted store through.  (The source filters
the list first and then loops; skipping non-client emails in one pass is the
same iteration.) -/
def manage_client_contexts : ContextStore → List (Email × SynthOracle) →
    String → ContextStore
  | store, [], _ => store
  | store, p :: rest, now =>
    if isClientEmail p.1 then
      manage_client_contexts (process_client_email store p.1 p.2 now) rest now
    else
      manage_client_contexts store rest now

/-- The communications currently persisted for a sender key. -/
def commsAt (store : ContextStore) (s : String) : List Communication :=
  match store s with
  | some c => c.communications
  | none => []

/-- Stores produced by the pipeline keep each record under its own
`client_email` key. -/
def WFStore (store : ContextStore) : Prop :=
  ∀ k c, store k = some c → c.client_email = k

/-! ## Label applier (`src/execution/apply_gmail_labels.py`)

`get_or_create_label` talks to the Gmail API; its per-category results are
abstracted as `label_ids : String → Option String` (`none` models a category
whose label could not be obtained, which `apply_gmail_labels` then leaves
unlabeled).  A label mutation is one `users().messages().modify` call; the
embedding returns the list of mutations issued, in order.  The skip test is
the source's substring check `'Email-Assistant' in label` over the email's
`labelIds` entries.
-/

/-- The namespace prefix of every label this system creates. -/
def ASSISTANT_NAMESPACE : String := "Email-Assistant"

/-- The static category-to-label-path table `LABEL_MAP`. -/
def LABEL_MAP : List (String × String) :=
  [("advertising", "Email-Assistant/Advertising"),
   ("invoice", "Email-Assistant/Invoice"),
   ("important_update", "Email-Assistant/Important-Update"),
   ("new_client_inquiry", "Email-Assistant/New-Client"),
   ("existing_client", "Email-Assistant/Existing-Client"),
   ("other", "Email-Assistant/Other")]

/-- An email as seen by the labeling stage: `category` from the cached
classification (read with `email.get('category', 'other')`) and the
`labelIds` the mail store reports for the message. -/
structure LEmail where
  id : String
  subject : String
  category : Option String
  labelIds : List String
deriving DecidableEq

/-- The skip test: `any('Email-Assistant' in label for label in
email.get('labelIds', []))`. -/
def hasAssistantLabel (labelIds : List String) : Bool :=
  labelIds.any (fun label => pyContains label ASSISTANT_NAMESPACE)

/-- The labeling loop of `apply_gmail_labels`: for each email in order, skip
it entirely when it already carries a namespace label, otherwise issue one
`modify` mutation with the category's label id (when one exists).  Returns
the mutations issued. -/
def apply_gmail_labels (label_ids : String → Option String) :
    List LEmail → List (String × String)
  | [] => []
  | e :: rest =>
    if hasAssistantLabel e.labelIds then
      apply_gmail_labels label_ids rest
    else
      match label_ids (e.category.getD "other") with
      | some lid => (e.id, lid) :: apply_gmail_labels label_ids rest
      | none => apply_gmail_labels label_ids rest

/-- The email set as it stands after a first labeling pass: each email that
was mutated now also carries the label id that was applied to it. -/
def afterFirstPass (label_ids : String → Option String) :
    List LEmail → List LEmail
  | [] => []
  | e :: rest =>
    (if hasAssistantLabel e.labelIds then e
     else
       match label_ids (e.category.getD "other") with
       | some lid => { e with labelIds := e.labelIds ++ [lid] }
       | none => e) :: afterFirstPass label_ids rest

/-! ## Concrete instances

Closed values used by the witness and counterexample theorems: demo runs of
each stage at small explicit inputs.
-/

/-- One classified email used to instantiate the classifier theorems. -/
def demoStep : CatStep :=
  { email := { id := "c1", subject := "s", category := none },
    anth := some "invoice", oai := none }

/-- The output record for `demoStep`. -/
def demoOut : CEmail := { id := "c1", subject := "s", category := some "invoice" }

/-- A low-confidence record used to instantiate the router theorems. -/
def rLow : InvoiceRecord :=
  { confidence := some (2/5), payload := [("filename", "a.pdf")] }

/-- A high-confidence record used to instantiate the router theorems. -/
def rHigh : InvoiceRecord := { confidence := some 1, payload := [] }

/-- A parsed object with only the sender populated. -/
def senderOnlyObj : JObj :=
  [("date", JVal.null), ("sender", JVal.str "Acme Corp"),
   ("invoice_number", JVal.null), ("amount", JVal.null),
   ("currency", JVal.null)]

/-- A parsed object carrying one key beyond the required five, every value
non-null — a shape `json.loads` accepts happily. -/
def extraKeysObj : JObj :=
  [("date", JVal.str "2024-01-01"), ("sender", JVal.str "Acme"),
   ("invoice_number", JVal.str "42"), ("amount", JVal.num 10),
   ("currency", JVal.str "USD"), ("notes", JVal.str "thanks")]

/-- A label environment returning an opaque Gmail-style label id, as
`users().labels().create` does for user labels. -/
def gmailIdEnv : String → Option String := fun _ => some "Label_5"

/-- An email not yet carrying any assistant label. -/
def freshInvoiceEmail : LEmail :=
  { id := "m9", subject := "Bill", category := some "invoice", labelIds := [] }

/-- A label environment whose ids are the hierarchical label paths. -/
def pathEnv : String → Option String := fun _ => some "Email-Assistant/Invoice"

/-- The provider-failure oracle: every synthesis call raises. -/
def oracleFail : SynthOracle := { newA := none, updA := none }

/-- First client email of the running example (sender `a@x.com`). -/
def e1 : Email :=
  { id := "m1", fromField := "Alice <a@x.com>", subject := "Quote request",
    date := "2024-01-01", body := "hello", category := some "new_client_inquiry" }

/-- Second client email from the same sender. -/
def e2 : Email :=
  { id := "m2", fromField := "Alice <a@x.com>", subject := "Details",
    date := "2024-01-02", body := "specs", category := some "existing_client" }

/-- Third client email from the same sender. -/
def e3 : Email :=
  { id := "m3", fromField := "Alice <a@x.com>", subject := "One more thing",
    date := "2024-01-03", body := "addendum", category := some "existing_client" }

/-- The persisted store after the first run, over `[e1, e2]`. -/
def runOne : ContextStore :=
  manage_client_contexts emptyStore [(e1, oracleFail), (e2, oracleFail)] "t1"

/-- The persisted store after the second run, over `[e1, e2, e3]` starting
from `runOne`. -/
def runTwo : ContextStore :=
  manage_client_contexts runOne
    [(e1, oracleFail), (e2, oracleFail), (e3, oracleFail)] "t2"

/-- A client email from a sender with no stored context. -/
def e7 : Email :=
  { id := "m7", fromField := "Bob <b@y.com>", subject := "Question",
    date := "2024-02-02", body := "hi", category := some "new_client_inquiry" }

/-- A stored context whose `last_contact` postdates `emailEarly`. -/
def ctxLate : ClientContext :=
  { client_email := "a@x.com", client_name := "Alice",
    first_contact := "2024-04-01", last_contact := "2024-05-01",
    project_summary := "Site build", inquiry_type := "General inquiry",
    status := "active", communications := [], action_items := [],
    created_at := "2024-04-01", updated_at := "2024-05-01" }

/-- An out-of-order email dated before `ctxLate.last_contact`. -/
def emailEarly : Email :=
  { id := "m0", fromField := "Alice <a@x.com>", subject := "Old note",
    date := "2024-01-01", body := "hi", category := some "existing_client" }

/-- An email dated after `ctxLate.last_contact`. -/
def emailLater : Email :=
  { id := "m5", fromField := "Alice <a@x.com>", subject := "New note",
    date := "2024-06-01", body := "hi", category := some "existing_client" }

/-! ## Classifier theorems -/

/-- The validation step always lands in the enumeration. -/
lemma validateCategory_mem (raw : String) : validateCategory raw ∈ CATEGORIES := by
  by_cases h : pyLower (pyStrip raw) ∈ CATEGORIES
  · have hv : validateCategory raw = pyLower (pyStrip raw) := by
      simp [validateCategory, h]
    rw [hv]; exact h
  · have hv : validateCategory raw = "other" := by
      simp [validateCategory, h]
    rw [hv]; simp [CATEGORIES]

/-- The category assigned by the primary/fallback/default chain is always a
member of the enumeration, whatever the providers do. -/
lemma categorize_one_fst_mem (ua : Bool) (k : Keys) (anth oai : Option String) :
    (categorize_one ua k anth oai).1 ∈ CATEGORIES := by
  obtain ⟨ak, ok⟩ := k
  cases ua <;> cases anth <;> cases oai <;> cases ak <;> cases ok <;>
    simp [categorize_one, categorize_with_anthropic, categorize_with_openai] <;>
    first
      | exact validateCategory_mem _
      | simp [CATEGORIES]

/-- Claim C6: for every email processed by the classification stage, the
assigned `category` is a member of the fixed 6-member enumeration, on every
control path (primary success, invalid token, provider failure, fallback
failure). -/
theorem category_always_in_enumeration :
    ∀ (ua : Bool) (k : Keys) (steps : List CatStep) (out : List CEmail),
      categorize_emails ua k steps = some out →
      ∀ e, e ∈ out → ∃ c, e.category = some c ∧ c ∈ CATEGORIES := by
  intro ua k steps out h e he
  unfold categorize_emails at h
  split at h
  · exact absurd h (by simp)
  · injection h with h
    subst h
    obtain ⟨st, _, rfl⟩ := List.mem_map.mp he
    exact ⟨_, rfl, categorize_one_fst_mem _ _ _ _⟩

/-- Witness for C6 at a concrete run. -/
theorem category_always_in_enumeration_witness :
    ∃ c, demoOut.category = some c ∧ c ∈ CATEGORIES :=
  category_always_in_enumeration true ⟨true, true⟩ [demoStep] [demoOut]
    (by decide) demoOut (by decide)

/-- Claim C3 (amended): the secondary provider is consulted (two provider
calls) exactly when the primary call raises and the secondary's key is
configured; a token returned by the primary — valid or not — is resolved by
the validation step alone, after a single call. -/
theorem fallback_only_on_provider_error :
    ∀ (ua : Bool) (k : Keys) (anth oai : Option String),
      ((categorize_one ua k anth oai).2 = 2 ↔
        ((if ua then anth else oai) = none ∧
          (if ua then k.openaiKey else k.anthropicKey) = true))
      ∧ ∀ s, (if ua then anth else oai) = some s →
          categorize_one ua k anth oai = (validateCategory s, 1) := by
  intro ua k anth oai
  obtain ⟨ak, ok⟩ := k
  cases ua <;> cases anth <;> cases oai <;> cases ak <;> cases ok <;>
    constructor <;>
    simp [categorize_one, categorize_with_anthropic, categorize_with_openai]

/-- Counterexample to C3 as stated: the primary provider answers with the
invalid token `"spam"` while the secondary would answer `"invoice"`; the code
assigns `"other"` after one provider call instead of consulting the
secondary. -/
theorem invalid_token_no_fallback_counterexample :
    categorize_one true ⟨true, true⟩ (some "spam") (some "invoice") = ("other", 1)
    ∧ categorize_one true ⟨true, true⟩ (some "spam") (some "invoice") ≠ ("invoice", 2) := by
  decide

/-- Witness for C3 (amended): a raised primary call with the secondary key
configured does reach the second provider. -/
theorem fallback_only_on_provider_error_witness :
    (categorize_one true ⟨true, true⟩ none (some "invoice")).2 = 2 :=
  (fallback_only_on_provider_error true ⟨true, true⟩ none (some "invoice")).1.mpr
    ⟨rfl, rfl⟩

/-- Claim C9: when the primary call fails and the other provider's key is
absent, the fallback is skipped and the email is assigned `"other"` after
exactly one provider call. -/
theorem no_fallback_without_key :
    ∀ (ua : Bool) (k : Keys) (anth oai : Option String),
      (if ua then anth else oai) = none →
      (if ua then k.openaiKey else k.anthropicKey) = false →
      categorize_one ua k anth oai = ("other", 1) := by
  intro ua k anth oai h1 h2
  obtain ⟨ak, ok⟩ := k
  cases ua
  · simp only [if_neg Bool.false_ne_true, Bool.false_eq_true, if_false] at h1 h2
    subst h1; subst h2
    simp [categorize_one, categorize_with_openai]
  · simp only [if_pos rfl, if_true] at h1 h2
    subst h1; subst h2
    simp [categorize_one, categorize_with_anthropic]

/-- Witness for C9. -/
theorem no_fallback_without_key_witness :
    categorize_one true ⟨true, false⟩ none (some "ignored") = ("other", 1) :=
  no_fallback_without_key true ⟨true, false⟩ none (some "ignored") rfl rfl

/-! ## Review-router theorems -/

/-- Claim C8: the review set is exactly the in-order subsequence of the
inputs whose (defaulted) confidence is strictly below the threshold, with
each routed record unaltered. -/
theorem review_queue_is_filtered_subsequence :
    ∀ (invoices_data : List InvoiceRecord) (threshold : ℚ),
      (review_queue_of invoices_data threshold).Sublist invoices_data
      ∧ ∀ inv, inv ∈ review_queue_of invoices_data threshold ↔
          inv ∈ invoices_data ∧ inv.confidence.getD 0 < threshold := by
  intro invoices_data threshold
  refine ⟨List.filter_sublist _, fun inv => ?_⟩
  simp [review_queue_of, List.mem_filter]

/-- Witness for C8 at a concrete input. -/
theorem review_queue_is_filtered_subsequence_witness :
    (review_queue_of [rLow, rHigh] (7/10)).Sublist [rLow, rHigh]
    ∧ (rLow ∈ review_queue_of [rLow, rHigh] (7/10) ↔
        rLow ∈ [rLow, rHigh] ∧ rLow.confidence.getD 0 < 7/10) :=
  ⟨(review_queue_is_filtered_subsequence [rLow, rHigh] (7/10)).1,
   (review_queue_is_filtered_subsequence [rLow, rHigh] (7/10)).2 rLow⟩

/-- Claim C10: when every record's confidence reaches the threshold the
review set is empty and no review-queue artifact is produced at all. -/
theorem empty_review_set_writes_no_artifact :
    ∀ (invoices_data : List InvoiceRecord) (threshold : ℚ),
      (∀ inv, inv ∈ invoices_data → threshold ≤ inv.confidence.getD 0) →
      generate_review_queue invoices_data threshold = none := by
  intro invoices_data threshold h
  have hempty : review_queue_of invoices_data threshold = [] := by
    refine List.filter_eq_nil_iff.mpr fun inv hinv => ?_
    simp [not_lt.mpr (h inv hinv)]
  simp [generate_review_queue, hempty]

/-- Witness for C10. -/
theorem empty_review_set_writes_no_artifact_witness :
    generate_review_queue [rHigh] (7/10) = none := by
  apply empty_review_set_writes_no_artifact
  intro inv hinv
  simp at hinv
  subst hinv
  norm_num [rHigh]

/-! ## Extraction-confidence theorems -/

/-- Rounding to two decimals is the identity on multiples of one fifth, so
the code's `round(fields_found / 5.0, 2)` never changes the quotient. -/
lemma round2_natCast_div5 (n : ℕ) : round2 ((n : ℚ) / 5) = (n : ℚ) / 5 := by
  unfold round2
  have h : (n : ℚ) / 5 * 100 = ((20 * n : ℤ) : ℚ) := by push_cast; ring
  rw [h, round_intCast]
  push_cast; ring

/-- At most five of the required fields can be non-null. -/
lemma required_non_null_le_five (data : JObj) : required_non_null data ≤ 5 := by
  unfold required_non_null
  calc (REQUIRED_FIELDS.filter _).length ≤ REQUIRED_FIELDS.length :=
        List.length_filter_le _ _
    _ = 5 := rfl

/-- When the parsed object's keys are exactly the five required fields, the
code's count over all values coincides with the count over the required
fields. -/
lemma fields_found_eq_required (data : JObj)
    (h : data.map Prod.fst = REQUIRED_FIELDS) :
    fields_found data = required_non_null data := by
  rcases data with _ | ⟨⟨k1, v1⟩, _ | ⟨⟨k2, v2⟩, _ | ⟨⟨k3, v3⟩,
    _ | ⟨⟨k4, v4⟩, _ | ⟨⟨k5, v5⟩, _ | ⟨p6, rest⟩⟩⟩⟩⟩⟩ <;>
    simp [REQUIRED_FIELDS] at h
  obtain ⟨h1, h2, h3, h4, h5⟩ := h
  subst h1; subst h2; subst h3; subst h4; subst h5
  simp only [fields_found, required_non_null, REQUIRED_FIELDS, List.filter,
    List.lookup, List.length]
  cases hv1 : v1.isNull <;> cases hv2 : v2.isNull <;> cases hv3 : v3.isNull <;>
    cases hv4 : v4.isNull <;> cases hv5 : v5.isNull <;>
    simp [hv1, hv2, hv3, hv4, hv5]

/-- Claim C4 (amended): for a successful extraction whose parsed object has
exactly the five required fields, confidence equals the count of non-null
required fields divided by 5 (two-decimal rounding is the identity here) and
lies in [0, 1].  Without the exact-shape hypothesis the code counts every
key of the parsed object, and the bound can fail. -/
theorem confidence_formula_on_exact_shape :
    ∀ data : JObj, data.map Prod.fst = REQUIRED_FIELDS →
      extract_invoice_data_with_llm (some data)
        = some (data, (required_non_null data : ℚ) / 5)
      ∧ 0 ≤ ((required_non_null data : ℚ) / 5)
      ∧ ((required_non_null data : ℚ) / 5) ≤ 1 := by
  intro data h
  have hff := fields_found_eq_required data h
  refine ⟨?_, by positivity, ?_⟩
  · simp [extract_invoice_data_with_llm, hff, round2_natCast_div5]
  · rw [div_le_one (by norm_num : (0:ℚ) < 5)]
    exact_mod_cast required_non_null_le_five data

/-- Witness for C4 (amended): the sender-only object gets confidence
`1/5 = 0.2`. -/
theorem confidence_formula_on_exact_shape_witness :
    extract_invoice_data_with_llm (some senderOnlyObj)
      = some (senderOnlyObj, 1/5) := by
  have h := (confidence_formula_on_exact_shape senderOnlyObj (by decide)).1
  have hr : required_non_null senderOnlyObj = 1 := by decide
  rw [h, hr]
  norm_num

/-- Counterexample to C4 as stated: a successful extraction over an object
with six non-null values yields confidence `6/5 > 1`, while the count of
non-null required fields divided by 5 is `1`. -/
theorem confidence_exceeds_one_counterexample :
    extract_invoice_data_with_llm (some extraKeysObj) = some (extraKeysObj, 6/5)
    ∧ ¬ ((6 : ℚ)/5 ≤ 1)
    ∧ (required_non_null extraKeysObj : ℚ) / 5 = 1 := by
  refine ⟨?_, by norm_num, ?_⟩
  · have hf : fields_found extraKeysObj = 6 := by decide
    simp [extract_invoice_data_with_llm, hf, round2_natCast_div5]
  · have hr : required_non_null extraKeysObj = 5 := by decide
    rw [hr]; norm_num

/-! ## Label-applier theorems -/

/-- Appending a namespace-bearing label id makes the skip test fire. -/
lemma hasAssistantLabel_append (ls : List String) (lid : String)
    (h : pyContains lid ASSISTANT_NAMESPACE = true) :
    hasAssistantLabel (ls ++ [lid]) = true := by
  simp [hasAssistantLabel, List.any_append, h]

/-- Claim C2 (amended): an email whose `labelIds` already contain a string
with `'Email-Assistant'` as a substring is skipped with no mutation, so a
run over an all-labeled set issues zero mutations; and a second pass over
the first pass's output issues zero mutations provided every label id the
stage uses carries the namespace substring (as the hierarchical label names
do — the Gmail API's opaque label ids need not). -/
theorem apply_gmail_labels_skip_and_conditional_idempotence :
    ∀ (label_ids : String → Option String) (emails : List LEmail),
      ((∀ e, e ∈ emails → hasAssistantLabel e.labelIds = true) →
        apply_gmail_labels label_ids emails = [])
      ∧ ((∀ c lid, label_ids c = some lid →
            pyContains lid ASSISTANT_NAMESPACE = true) →
          apply_gmail_labels label_ids (afterFirstPass label_ids emails) = []) := by
  intro label_ids emails
  constructor
  · intro h
    induction emails with
    | nil => rfl
    | cons e rest ih =>
      have he := h e (List.mem_cons_self e rest)
      simp [apply_gmail_labels, he]
      exact ih fun x hx => h x (List.mem_cons_of_mem e hx)
  · intro henv
    induction emails with
    | nil => rfl
    | cons e rest ih =>
      by_cases hskip : hasAssistantLabel e.labelIds = true
      · simpa [afterFirstPass, apply_gmail_labels, hskip] using ih
      · cases hlab : label_ids (e.category.getD "other") with
        | some lid =>
          have hc := henv _ _ hlab
          simpa [afterFirstPass, hlab, apply_gmail_labels, hskip,
            hasAssistantLabel_append _ _ hc] using ih
        | none =>
          simpa [afterFirstPass, hlab, apply_gmail_labels, hskip] using ih

/-- Counterexample to C2 as stated: with opaque label ids, the second pass
over the email set — whose labels now include the id applied in the first
pass — issues the very same mutation again instead of zero. -/
theorem label_second_pass_counterexample :
    apply_gmail_labels gmailIdEnv [freshInvoiceEmail] = [("m9", "Label_5")]
    ∧ apply_gmail_labels gmailIdEnv (afterFirstPass gmailIdEnv [freshInvoiceEmail])
        = [("m9", "Label_5")]
    ∧ apply_gmail_labels gmailIdEnv
        (afterFirstPass gmailIdEnv [freshInvoiceEmail]) ≠ [] := by
  decide

/-- Witness for C2 (amended): with namespace-bearing label ids the second
pass issues zero mutations. -/
theorem apply_gmail_labels_skip_and_conditional_idempotence_witness :
    apply_gmail_labels pathEnv (afterFirstPass pathEnv [freshInvoiceEmail]) = [] := by
  refine (apply_gmail_labels_skip_and_conditional_idempotence pathEnv
    [freshInvoiceEmail]).2 ?_
  intro c lid h
  injection h with h
  subst h
  decide

/-! ## Context-merge theorems -/

/-- Claim C5 (amended): a merge sets `lastContact` to the incoming email's
date unconditionally; consequently it is non-decreasing precisely when the
incoming date is not earlier than the stored value. -/
theorem last_contact_set_unconditionally :
    ∀ (context : ClientContext) (email : Email)
      (analysis : Option UpdateAnalysis) (now : String),
      (update_existing_context context email analysis now).last_contact = email.date
      ∧ (pyStrLe context.last_contact email.date = true →
          pyStrLe context.last_contact
            (update_existing_context context email analysis now).last_contact = true) := by
  intro context email analysis now
  have h : (update_existing_context context email analysis now).last_contact
      = email.date := by
    cases analysis <;> rfl
  exact ⟨h, fun hle => h ▸ hle⟩

/-- Updating never touches the record's key. -/
lemma update_existing_context_client_email (c : ClientContext) (e : Email)
    (a : Option UpdateAnalysis) (now : String) :
    (update_existing_context c e a now).client_email = c.client_email := by
  cases a <;> rfl

/-- Updating appends exactly one communication record. -/
lemma update_existing_context_comms (c : ClientContext) (e : Email)
    (a : Option UpdateAnalysis) (now : String) :
    (update_existing_context c e a now).communications
      = c.communications ++ [updateComm e a] := by
  cases a <;> rfl

/-- A fresh record is keyed by the sender address of its email. -/
lemma create_new_context_client_email (e : Email) (a : Option NewAnalysis)
    (now : String) :
    (create_new_context e a now).client_email
      = extract_sender_email e.fromField := by
  cases a <;> rfl

/-- A fresh record starts with exactly one communication record. -/
lemma create_new_context_comms (e : Email) (a : Option NewAnalysis)
    (now : String) :
    (create_new_context e a now).communications = [createComm e a] := by
  cases a <;> rfl

/-- Processing one email preserves the store key invariant. -/
lemma process_client_email_wf (store : ContextStore) (e : Email)
    (o : SynthOracle) (now : String) (wf : WFStore store) :
    WFStore (process_client_email store e o now) := by
  intro k c hk
  cases hstore : store (extract_sender_email e.fromField) with
  | some ctx =>
    rw [process_client_email, hstore] at hk
    simp only [save_context] at hk
    by_cases hkey : k = (update_existing_context ctx e o.updA now).client_email
    · rw [if_pos hkey] at hk
      injection hk with hk
      rw [← hk, hkey]
    · rw [if_neg hkey] at hk
      exact wf k c hk
  | none =>
    rw [process_client_email, hstore] at hk
    simp only [save_context] at hk
    by_cases hkey : k = (create_new_context e o.newA now).client_email
    · rw [if_pos hkey] at hk
      injection hk with hk
      rw [← hk, hkey]
    · rw [if_neg hkey] at hk
      exact wf k c hk

/-- Processing one email appends exactly one communication record at the
email's sender key and leaves every other key's communications unchanged. -/
lemma process_client_email_commsAt (store : ContextStore) (e : Email)
    (o : SynthOracle) (now s : String) (wf : WFStore store) :
    ∃ r, commsAt (process_client_email store e o now) s
      = commsAt store s
        ++ (if extract_sender_email e.fromField = s then [r] else []) := by
  cases hstore : store (extract_sender_email e.fromField) with
  | some ctx =>
    have hce : ctx.client_email = extract_sender_email e.fromField :=
      wf _ _ hstore
    refine ⟨updateComm e o.updA, ?_⟩
    have hps : process_client_email store e o now
        = save_context store (update_existing_context ctx e o.updA now) := by
      rw [process_client_email, hstore]
    by_cases hs : extract_sender_email e.fromField = s
    · have hstores : store s = some ctx := hs ▸ hstore
      rw [hps]
      simp [commsAt, save_context, update_existing_context_client_email, hce,
        hs, update_existing_context_comms, hstores]
    · have hs2 : ¬ s = extract_sender_email e.fromField := fun hh => hs hh.symm
      rw [hps]
      simp [commsAt, save_context, update_existing_context_client_email, hce,
        hs, hs2]
  | none =>
    refine ⟨createComm e o.newA, ?_⟩
    have hps : process_client_email store e o now
        = save_context store (create_new_context e o.newA now) := by
      rw [process_client_email, hstore]
    by_cases hs : extract_sender_email e.fromField = s
    · have hstores : store s = none := hs ▸ hstore
      rw [hps]
      simp [commsAt, save_context, create_new_context_client_email, hs,
        create_new_context_comms, hstores]
    · have hs2 : ¬ s = extract_sender_email e.fromField := fun hh => hs hh.symm
      rw [hps]
      simp [commsAt, save_context, create_new_context_client_email, hs, hs2]

/-- Claim C1 (amended): over any batch, the context-management stage maps a
sender's persisted communications sequence `c` to `c ++ recs` where `recs`
holds exactly one new record per processed client email from that sender —
append-only (no loss, no reordering), but with no deduplication by email id,
so a rerun over already-processed emails appends their records again. -/
theorem manage_client_contexts_append_per_email :
    ∀ (items : List (Email × SynthOracle)) (store : ContextStore)
      (now s : String), WFStore store →
      ∃ recs, commsAt (manage_client_contexts store items now) s
          = commsAt store s ++ recs
        ∧ recs.length = (items.filter (fun p =>
            isClientEmail p.1 && (extract_sender_email p.1.fromField == s))).length := by
  intro items
  induction items with
  | nil =>
    intro store now s _
    exact ⟨[], by simp [manage_client_contexts], by simp⟩
  | cons p rest ih =>
    intro store now s wf
    by_cases hclient : isClientEmail p.1 = true
    · obtain ⟨r, hr⟩ := process_client_email_commsAt store p.1 p.2 now s wf
      obtain ⟨recs, h1, h2⟩ := ih (process_client_email store p.1 p.2 now) now s
        (process_client_email_wf store p.1 p.2 now wf)
      refine ⟨(if extract_sender_email p.1.fromField = s then [r] else [])
        ++ recs, ?_, ?_⟩
      · have hm : manage_client_contexts store (p :: rest) now
            = manage_client_contexts (process_client_email store p.1 p.2 now)
                rest now := by
          rw [manage_client_contexts, if_pos hclient]
        rw [hm, h1, hr, List.append_assoc]
      · rw [List.length_append, h2, List.filter_cons]
        by_cases hs : extract_sender_email p.1.fromField = s
        · simp [hclient, hs]
          omega
        · simp [hclient, hs]
    · obtain ⟨recs, h1, h2⟩ := ih store now s wf
      refine ⟨recs, ?_, ?_⟩
      · have hm : manage_client_contexts store (p :: rest) now
            = manage_client_contexts store rest now := by
          rw [manage_client_contexts, if_neg hclient]
        rw [hm, h1]
      · rw [h2, List.filter_cons]
        simp [hclient]

/-- Counterexample to C1 as stated: the second run's communications sequence
has five records, not the first run's two plus one — `e1` and `e2` are
reprocessed and their records duplicated. -/
theorem two_run_append_one_counterexample :
    (commsAt runOne "a@x.com").length = 2
    ∧ (commsAt runTwo "a@x.com").length = 5
    ∧ (commsAt runTwo "a@x.com").length ≠ (commsAt runOne "a@x.com").length + 1 := by
  decide

/-- Witness for C1 (amended) at a one-email batch. -/
theorem manage_client_contexts_append_per_email_witness :
    (commsAt (manage_client_contexts emptyStore [(e1, oracleFail)] "t0")
      "a@x.com").length = 1 := by
  obtain ⟨recs, h1, h2⟩ := manage_client_contexts_append_per_email
    [(e1, oracleFail)] emptyStore "t0" "a@x.com"
    (fun k c h => Option.noConfusion h)
  rw [h1]
  have hlen : recs.length = 1 := by rw [h2]; decide
  simp [commsAt, emptyStore, hlen]

/-- Claim C7: when synthesis fails (`oracleFail`), the stage still appends
(or creates) a communication record built from the envelope fields alone —
id, date, subject, a default topic, no key points — and the merged record is
persisted at the sender's key; `last_contact` is still advanced. -/
theorem synthesis_failure_still_appends_and_persists :
    ∀ (store : ContextStore) (e : Email) (now : String), WFStore store →
      ∃ c, process_client_email store e oracleFail now
            (extract_sender_email e.fromField) = some c
        ∧ c.communications
          = commsAt store (extract_sender_email e.fromField) ++ [
              { email_id := e.id, date := e.date, subject := e.subject,
                topic := if (store (extract_sender_email e.fromField)).isSome
                         then "Follow-up" else "Initial contact",
                key_points := [] }]
        ∧ c.last_contact = e.date := by
  intro store e now wf
  cases hstore : store (extract_sender_email e.fromField) with
  | some ctx =>
    have hce : ctx.client_email = extract_sender_email e.fromField :=
      wf _ _ hstore
    refine ⟨update_existing_context ctx e none now, ?_, ?_, rfl⟩
    · rw [process_client_email, hstore]
      simp only [save_context]
      rw [if_pos (by rw [update_existing_context_client_email, hce])]
      rfl
    · rw [update_existing_context_comms]
      simp [commsAt, hstore, updateComm]
  | none =>
    refine ⟨create_new_context e none now, ?_, ?_, rfl⟩
    · rw [process_client_email, hstore]
      simp only [save_context]
      rw [if_pos (by rw [create_new_context_client_email])]
      rfl
    · rw [create_new_context_comms]
      simp [commsAt, hstore, createComm]

/-- Witness for C7: a context really is persisted at the sender key. -/
theorem synthesis_failure_still_appends_and_persists_witness :
    (process_client_email emptyStore e7 oracleFail "t7"
      (extract_sender_email e7.fromField)).isSome = true := by
  obtain ⟨c, h1, _⟩ := synthesis_failure_still_appends_and_persists
    emptyStore e7 "t7" (fun k c h => Option.noConfusion h)
  rw [h1]
  rfl

/-- Counterexample to C5 as stated: merging an email whose date precedes the
stored `last_contact` makes `last_contact` strictly earlier than before. -/
theorem last_contact_regression_counterexample :
    pyStrLt (update_existing_context ctxLate emailEarly none "2024-05-02").last_contact
      ctxLate.last_contact = true := by decide

/-- Witness for C5 (amended). -/
theorem last_contact_set_unconditionally_witness :
    (update_existing_context ctxLate emailLater none "t").last_contact = "2024-06-01"
    ∧ pyStrLe ctxLate.last_contact
        (update_existing_context ctxLate emailLater none "t").last_contact = true :=
  ⟨(last_contact_set_unconditionally ctxLate emailLater none "t").1,
   (last_contact_set_unconditionally ctxLate emailLater none "t").2 (by decide)⟩
